import Mathlib

/-!
# transip-ddns: reconciliation of one DNS "A" record with the public IPv4 address

Shallow embedding of `main.go`.  The program talks to three collaborators
(the process environment, the ipify HTTP endpoint and the TransIP registrar
client); their answers are collected in a `World`, and a run of the program is
a value of `Prog`: the ordered list of observable events (outbound calls and
log lines) together with either a return value or the exit status set by
`log.Fatal`.
-/

set_option autoImplicit false

namespace TransipDdns

/-! ## Data model -/

/-- DNS entry as declared by `domain.DNSEntry` of gotransip
(`Name`, `Expire`, `Type`, `Content`).  `Type` is a reserved word, hence `Type_`. -/
structure DNSEntry where
  Name : String
  Expire : Int
  Type_ : String
  Content : String
deriving DecidableEq, Repr

/-- Observable events of a run, in program order. -/
inductive Event where
  /-- Call `http.Get(url)`. -/
  | httpGet (url : String)
  /-- Call `gotransip.NewClient` with the configured `AccountName` and `PrivateKeyPath`. -/
  | NewClient (AccountName PrivateKeyPath : String)
  /-- Call `domainRepo.GetDNSEntries(domainName)`. -/
  | GetDNSEntries (domainName : String)
  /-- Call `domainRepo.UpdateDNSEntry(domainName, dnsEntry)`. -/
  | UpdateDNSEntry (domainName : String) (dnsEntry : DNSEntry)
  /-- Call `domainRepo.AddDNSEntry(domainName, newDNSEntry)`. -/
  | AddDNSEntry (domainName : String) (newDNSEntry : DNSEntry)
  /-- A line written through package `log`. -/
  | log (line : String)
deriving DecidableEq, Repr

/-- The part of `http.Response` that `getPublicIPv4` looks at; `Body` is the
result of `io.ReadAll(resp.Body)`. -/
structure Response where
  StatusCode : Int
  Status : String
  Body : Except String String

/-- Answers of the external collaborators.  A Go `error` is modelled by its
message, `nil` by `none`. -/
structure World where
  httpGet : String → Except String Response
  NewClient : String → String → Option String
  GetDNSEntries : String → Except String (List DNSEntry)
  UpdateDNSEntry : String → DNSEntry → Option String
  AddDNSEntry : String → DNSEntry → Option String

/-- Process environment: the list of `KEY=value` bindings. -/
abbrev Env := List (String × String)

/-- Model of `os.Getenv`: the value bound to `key`, or the empty string when the
variable is not present. -/
def Getenv (env : Env) (key : String) : String :=
  match env.find? (fun kv => kv.1 == key) with
  | some kv => kv.2
  | none => ""

/-! ## Runs -/

/-- A (partial) run: the events produced so far and either a value or the exit
status with which the process was terminated. -/
structure Prog (α : Type) where
  events : List Event
  result : Except Nat α

namespace Prog

/-- Sequencing: events are appended; nothing runs after the process exited. -/
def bind {α β : Type} (p : Prog α) (f : α → Prog β) : Prog β :=
  match p.result with
  | .error code => ⟨p.events, .error code⟩
  | .ok a => ⟨p.events ++ (f a).events, (f a).result⟩

instance : Monad Prog where
  pure a := ⟨[], .ok a⟩
  bind := Prog.bind

end Prog

/-- Record one outbound call. -/
def call (e : Event) : Prog Unit := ⟨[e], .ok ()⟩

/-- Model of `log.Printf`: write one line. -/
def logPrintf (line : String) : Prog Unit := ⟨[.log line], .ok ()⟩

/-- Model of `log.Fatal` and `log.Fatalf`: write one line, then `os.Exit(1)`. -/
def logFatal {α : Type} (line : String) : Prog α := ⟨[.log line], .error 1⟩

/-! ## The program -/

/-- The endpoint queried by `getPublicIPv4`. -/
def ipifyURL : String := "https://api.ipify.org"

/-- The constant `http.StatusOK`. -/
def StatusOK : Int := 200

/-- Function `getPublicIPv4` (main.go:72-86): returns the pair `(string, error)`. -/
def getPublicIPv4 (w : World) : Prog (String × Option String) := do
  call (.httpGet ipifyURL)
  match w.httpGet ipifyURL with
  | .error err =>
    return ("", some ("failed to make HTTP request to ipify.org: " ++ err))
  | .ok resp =>
    if resp.StatusCode ≠ StatusOK then
      return ("", some ("ipify.org returned non-OK status: "
        ++ toString resp.StatusCode ++ " " ++ resp.Status))
    else
      match resp.Body with
      | .error err =>
        return ("", some ("failed to read response body from ipify.org: " ++ err))
      | .ok body => return (body, none)

/-- The `for _, dnsEntry := range dnsEntries` loop of `main` (main.go:40-56).
The value is the final `foundRecord`; `break` is the absence of a recursive
call in the matching branch. -/
def rangeLoop (w : World) (domainName subdomainName ip : String) :
    List DNSEntry → Prog Bool
  | [] => pure false
  | dnsEntry :: rest =>
    if dnsEntry.Name == subdomainName && dnsEntry.Type_ == "A" then do
      logPrintf ("Found existing A record for " ++ subdomainName ++ "." ++ domainName
        ++ ": " ++ dnsEntry.Content ++ " (TTL: " ++ toString dnsEntry.Expire ++ ")")
      if dnsEntry.Content != ip then
        let dnsEntry := { dnsEntry with Content := ip }
        call (.UpdateDNSEntry domainName dnsEntry)
        match w.UpdateDNSEntry domainName dnsEntry with
        | some err =>
          logFatal ("Failed to update A record for " ++ subdomainName ++ "." ++ domainName
            ++ " to " ++ ip ++ ": " ++ err)
        | none =>
          logPrintf ("Successfully updated A record for " ++ subdomainName ++ "."
            ++ domainName ++ " to " ++ ip)
      else
        logPrintf ("A record for " ++ subdomainName ++ "." ++ domainName
          ++ " is already set to " ++ ip ++ ". No update needed.")
      return true
    else
      rangeLoop w domainName subdomainName ip rest

/-- Function `main` (main.go:14-70). -/
def main (env : Env) (w : World) : Prog Unit := do
  let accountName := Getenv env "TRANSIP_ACCOUNT_NAME"
  let privateKeyPath := Getenv env "TRANSIP_PRIVATE_KEY_PATH"
  let domainName := Getenv env "DOMAIN"
  let subdomainName := Getenv env "SUBDOMAIN"
  if accountName == "" || privateKeyPath == "" then
    logFatal
      "TRANSIP_ACCOUNT_NAME and TRANSIP_PRIVATE_KEY_PATH environment variables must be set."
  let (ip, err) ← getPublicIPv4 w
  if let some err := err then
    logFatal ("Failed to get public IPv4 address: " ++ err)
  logPrintf ("Current public IPv4 address: " ++ ip)
  call (.NewClient accountName privateKeyPath)
  if let some err := w.NewClient accountName privateKeyPath then
    logFatal ("Failed to create TransIP API client: " ++ err)
  call (.GetDNSEntries domainName)
  match w.GetDNSEntries domainName with
  | .error err =>
    logFatal ("Failed to get DNS entries for domain " ++ domainName ++ ": " ++ err)
  | .ok dnsEntries =>
    let foundRecord ← rangeLoop w domainName subdomainName ip dnsEntries
    if !foundRecord then
      let newDNSEntry : DNSEntry :=
        { Name := subdomainName, Expire := 300, Type_ := "A", Content := ip }
      call (.AddDNSEntry domainName newDNSEntry)
      if let some err := w.AddDNSEntry domainName newDNSEntry then
        logFatal ("Failed to add new A record for " ++ subdomainName ++ "." ++ domainName
          ++ " to " ++ ip ++ ": " ++ err)
      logPrintf ("Successfully added new A record for " ++ subdomainName ++ "."
        ++ domainName ++ " to " ++ ip)

/-! ## Observations on a run -/

/-- The `UpdateDNSEntry` calls of a trace, with their arguments. -/
def updateCalls : List Event → List (String × DNSEntry)
  | [] => []
  | .UpdateDNSEntry d e :: es => (d, e) :: updateCalls es
  | _ :: es => updateCalls es

/-- The `AddDNSEntry` calls of a trace, with their arguments. -/
def addCalls : List Event → List (String × DNSEntry)
  | [] => []
  | .AddDNSEntry d e :: es => (d, e) :: addCalls es
  | _ :: es => addCalls es

/-- The `GetDNSEntries` calls of a trace. -/
def getCalls : List Event → List String
  | [] => []
  | .GetDNSEntries d :: es => d :: getCalls es
  | _ :: es => getCalls es

/-- The `http.Get` requests of a trace. -/
def httpCalls : List Event → List String
  | [] => []
  | .httpGet u :: es => u :: httpCalls es
  | _ :: es => httpCalls es

/-- Number of mutating registrar calls (update plus add) in a trace. -/
def mutatingCalls (es : List Event) : Nat :=
  (updateCalls es).length + (addCalls es).length

/-! ## Specification vocabulary and concrete inputs -/

/-- Selection test of the loop (`dnsEntry.Name == subdomainName && dnsEntry.Type == "A"`),
as a proposition. -/
def Matches (subdomainName : String) (r : DNSEntry) : Prop :=
  r.Name = subdomainName ∧ r.Type_ = "A"

instance (s : String) (r : DNSEntry) : Decidable (Matches s r) := by
  unfold Matches; infer_instance

/-- The events of a run that reaches the listing call with resolved address `ip`:
the ipify request, the log line, the client construction and the listing call. -/
def header (env : Env) (ip : String) : List Event :=
  [.httpGet ipifyURL, .log ("Current public IPv4 address: " ++ ip),
   .NewClient (Getenv env "TRANSIP_ACCOUNT_NAME") (Getenv env "TRANSIP_PRIVATE_KEY_PATH"),
   .GetDNSEntries (Getenv env "DOMAIN")]

/-- Failure conditions of the ipify exchange: the request failed at network level, the
status is not 200, or reading the body failed. -/
def HttpFailure : Except String Response → Prop
  | .error _ => True
  | .ok resp => resp.StatusCode ≠ 200 ∨ ∃ err, resp.Body = .error err

/-- Replace the first record satisfying `p` by `e`, in place. -/
def replaceFirst (p : DNSEntry → Bool) (e : DNSEntry) : List DNSEntry → List DNSEntry
  | [] => []
  | r :: rs => if p r then e :: rs else r :: replaceFirst p e rs

/-- Abstract registrar state, a record list: a successful `UpdateDNSEntry` replaces, in
place, the first record with the name and type of the entry passed (for the entry `main`
passes this is the record the loop selected); a successful `AddDNSEntry` appends the
entry passed; every other event leaves the records as they are. -/
def registrarStep (w : World) (records : List DNSEntry) : Event → List DNSEntry
  | .UpdateDNSEntry d e =>
    if w.UpdateDNSEntry d e = none then
      replaceFirst (fun r => r.Name == e.Name && r.Type_ == e.Type_) e records
    else records
  | .AddDNSEntry d e =>
    if w.AddDNSEntry d e = none then records ++ [e] else records
  | _ => records

/-- Registrar state after the events of a run. -/
def registrarAfter (w : World) (records : List DNSEntry) (events : List Event) :
    List DNSEntry :=
  events.foldl (registrarStep w) records

/-- The world `w` with the listing replaced by `records`. -/
def withListing (w : World) (records : List DNSEntry) : World :=
  { w with GetDNSEntries := fun _ => .ok records }

/-- Concrete environment used in the examples: all four variables set. -/
def exampleEnv : Env :=
  [("TRANSIP_ACCOUNT_NAME", "acct"), ("TRANSIP_PRIVATE_KEY_PATH", "/etc/transip/key.pem"),
   ("DOMAIN", "example.com"), ("SUBDOMAIN", "home")]

/-- Concrete world in which every collaborator succeeds: ipify answers `ip`,
the registrar lists `records` and accepts every write. -/
def exampleWorld (ip : String) (records : List DNSEntry) : World where
  httpGet := fun _ => .ok ⟨200, "200 OK", .ok ip⟩
  NewClient := fun _ _ => none
  GetDNSEntries := fun _ => .ok records
  UpdateDNSEntry := fun _ _ => none
  AddDNSEntry := fun _ _ => none

/-- A listing with two "A" records named `home`; only the second holds 9.9.9.9. -/
def duplicateRecords : List DNSEntry :=
  [⟨"home", 300, "A", "1.1.1.1"⟩, ⟨"home", 3600, "A", "9.9.9.9"⟩]

/-- A listing in which the third record is the first "A" record named `home`: it is
preceded by an "AAAA" record named `home` and an "A" record named `www`, and followed by
a second "A" record named `home`. -/
def mixedRecords : List DNSEntry :=
  [⟨"home", 86400, "AAAA", "2001:db8::1"⟩, ⟨"www", 300, "A", "9.9.9.9"⟩,
   ⟨"home", 300, "A", "1.1.1.1"⟩, ⟨"home", 3600, "A", "9.9.9.9"⟩]

/-- Environment with credentials and subdomain but without `DOMAIN`. -/
def noDomainEnv : Env :=
  [("TRANSIP_ACCOUNT_NAME", "acct"), ("TRANSIP_PRIVATE_KEY_PATH", "/etc/transip/key.pem"),
   ("SUBDOMAIN", "home")]

/-- World in which ipify answers 9.9.9.9 and the registrar rejects the listing. -/
def listingFailsWorld : World where
  httpGet := fun _ => .ok ⟨200, "200 OK", .ok "9.9.9.9"⟩
  NewClient := fun _ _ => none
  GetDNSEntries := fun _ => .error "domain not found"
  UpdateDNSEntry := fun _ _ => none
  AddDNSEntry := fun _ _ => none

/-- World in which ipify answers with status 503. -/
def ipifyDownWorld : World where
  httpGet := fun _ => .ok ⟨503, "503 Service Unavailable", .ok ""⟩
  NewClient := fun _ _ => none
  GetDNSEntries := fun _ => .ok []
  UpdateDNSEntry := fun _ _ => none
  AddDNSEntry := fun _ _ => none

/-! ## The loop -/

theorem rangeLoop_cons_skip (w : World) (d s ip : String) (r : DNSEntry) (rest : List DNSEntry)
    (h : ¬ Matches s r) :
    rangeLoop w d s ip (r :: rest) = rangeLoop w d s ip rest := by
  have : (r.Name == s && r.Type_ == "A") = false := by
    simp only [Matches] at h
    simp only [Bool.and_eq_false_imp, beq_iff_eq, beq_eq_false_iff_ne]
    intro h1 h2; exact h ⟨h1, h2⟩
  simp [rangeLoop, this]

theorem rangeLoop_cons_match (w : World) (d s ip : String) (m : DNSEntry) (rest : List DNSEntry)
    (h : Matches s m) :
    rangeLoop w d s ip (m :: rest) = rangeLoop w d s ip [m] := by
  have : (m.Name == s && m.Type_ == "A") = true := by
    simp only [Matches] at h
    simp [h.1, h.2]
  simp [rangeLoop, this]

theorem rangeLoop_match_same (w : World) (d s ip : String) (m : DNSEntry)
    (h : Matches s m) (hc : m.Content = ip) :
    rangeLoop w d s ip [m] =
      ⟨[.log ("Found existing A record for " ++ s ++ "." ++ d
          ++ ": " ++ m.Content ++ " (TTL: " ++ toString m.Expire ++ ")"),
        .log ("A record for " ++ s ++ "." ++ d
          ++ " is already set to " ++ ip ++ ". No update needed.")], .ok true⟩ := by
  have : (m.Name == s && m.Type_ == "A") = true := by
    simp only [Matches] at h
    simp [h.1, h.2]
  simp [rangeLoop, this, hc, bind, Prog.bind, pure, logPrintf]

theorem rangeLoop_match_diff (w : World) (d s ip : String) (m : DNSEntry)
    (h : Matches s m) (hc : m.Content ≠ ip) :
    rangeLoop w d s ip [m] =
      ⟨[.log ("Found existing A record for " ++ s ++ "." ++ d
          ++ ": " ++ m.Content ++ " (TTL: " ++ toString m.Expire ++ ")"),
        .UpdateDNSEntry d { m with Content := ip },
        .log (match w.UpdateDNSEntry d { m with Content := ip } with
          | some err => "Failed to update A record for " ++ s ++ "." ++ d
              ++ " to " ++ ip ++ ": " ++ err
          | none => "Successfully updated A record for " ++ s ++ "." ++ d ++ " to " ++ ip)],
        match w.UpdateDNSEntry d { m with Content := ip } with
          | some _ => .error 1
          | none => .ok true⟩ := by
  have : (m.Name == s && m.Type_ == "A") = true := by
    simp only [Matches] at h
    simp [h.1, h.2]
  cases hu : w.UpdateDNSEntry d { m with Content := ip } <;>
    simp [rangeLoop, this, hc, bind, Prog.bind, pure, logPrintf, logFatal, call, hu]

theorem rangeLoop_nomatch (w : World) (d s ip : String) (l : List DNSEntry)
    (h : ∀ r ∈ l, ¬ Matches s r) :
    rangeLoop w d s ip l = ⟨[], .ok false⟩ := by
  induction l with
  | nil => rfl
  | cons r rest ih =>
    rw [rangeLoop_cons_skip w d s ip r rest (h r (List.mem_cons_self _ _))]
    exact ih (fun x hx => h x (List.mem_cons_of_mem _ hx))

theorem rangeLoop_first_match (w : World) (d s ip : String) (pre post : List DNSEntry)
    (m : DNSEntry) (hpre : ∀ r ∈ pre, ¬ Matches s r) (hm : Matches s m) :
    rangeLoop w d s ip (pre ++ m :: post) = rangeLoop w d s ip [m] := by
  induction pre with
  | nil => exact rangeLoop_cons_match w d s ip m post hm
  | cons r rest ih =>
    rw [List.cons_append, rangeLoop_cons_skip w d s ip r _ (hpre r (List.mem_cons_self _ _))]
    exact ih (fun x hx => hpre x (List.mem_cons_of_mem _ hx))

theorem split_first_match (s : String) (l : List DNSEntry) :
    (∀ r ∈ l, ¬ Matches s r) ∨
    ∃ pre m post, l = pre ++ m :: post ∧ (∀ r ∈ pre, ¬ Matches s r) ∧ Matches s m := by
  induction l with
  | nil => left; simp
  | cons r rest ih =>
    by_cases hr : Matches s r
    · right; exact ⟨[], r, rest, rfl, by simp, hr⟩
    · rcases ih with h | ⟨pre, m, post, hl, hpre, hm⟩
      · left
        intro x hx
        rcases List.mem_cons.mp hx with rfl | hx
        · exact hr
        · exact h x hx
      · right
        refine ⟨r :: pre, m, post, by simp [hl], ?_, hm⟩
        intro x hx
        rcases List.mem_cons.mp hx with rfl | hx
        · exact hr
        · exact hpre x hx

theorem getPublicIPv4_ok (w : World) (status ip : String)
    (h : w.httpGet ipifyURL = .ok ⟨200, status, .ok ip⟩) :
    getPublicIPv4 w = ⟨[.httpGet ipifyURL], .ok (ip, none)⟩ := by
  simp [getPublicIPv4, h, bind, Prog.bind, pure, call, StatusOK]

theorem main_listed (env : Env) (w : World) (status ip : String) (l : List DNSEntry)
    (hacc : Getenv env "TRANSIP_ACCOUNT_NAME" ≠ "")
    (hkey : Getenv env "TRANSIP_PRIVATE_KEY_PATH" ≠ "")
    (hip : w.httpGet ipifyURL = .ok ⟨200, status, .ok ip⟩)
    (hcl : w.NewClient (Getenv env "TRANSIP_ACCOUNT_NAME")
      (Getenv env "TRANSIP_PRIVATE_KEY_PATH") = none)
    (hl : w.GetDNSEntries (Getenv env "DOMAIN") = .ok l) :
    main env w =
      Prog.bind ⟨header env ip, .ok ()⟩ (fun _ =>
        Prog.bind (rangeLoop w (Getenv env "DOMAIN") (Getenv env "SUBDOMAIN") ip l)
          (fun foundRecord =>
            if foundRecord then ⟨[], .ok ()⟩ else
              ⟨[.AddDNSEntry (Getenv env "DOMAIN")
                  ⟨Getenv env "SUBDOMAIN", 300, "A", ip⟩,
                .log (match w.AddDNSEntry (Getenv env "DOMAIN")
                    ⟨Getenv env "SUBDOMAIN", 300, "A", ip⟩ with
                  | some err => "Failed to add new A record for " ++ Getenv env "SUBDOMAIN"
                      ++ "." ++ Getenv env "DOMAIN" ++ " to " ++ ip ++ ": " ++ err
                  | none => "Successfully added new A record for " ++ Getenv env "SUBDOMAIN"
                      ++ "." ++ Getenv env "DOMAIN" ++ " to " ++ ip)],
               match w.AddDNSEntry (Getenv env "DOMAIN")
                    ⟨Getenv env "SUBDOMAIN", 300, "A", ip⟩ with
                  | some _ => .error 1
                  | none => .ok ()⟩)) := by
  unfold main
  generalize hp : rangeLoop w (Getenv env "DOMAIN") (Getenv env "SUBDOMAIN") ip l = p
  rcases p with ⟨es, _ | found⟩ <;>
  cases hA : w.AddDNSEntry (Getenv env "DOMAIN") ⟨Getenv env "SUBDOMAIN", 300, "A", ip⟩ <;>
  (try cases found) <;>
  simp [getPublicIPv4_ok w status ip hip, hcl, hl, bind, Prog.bind, pure, call, logPrintf,
    logFatal, header, hacc, hkey, hp, hA]

/-! ## The paths of `main` -/

theorem getPublicIPv4_cases (w : World) :
    (∃ e, getPublicIPv4 w = ⟨[.httpGet ipifyURL], .ok ("", some e)⟩) ∨
    (∃ status ip, w.httpGet ipifyURL = .ok ⟨200, status, .ok ip⟩) := by
  cases h : w.httpGet ipifyURL with
  | error err =>
    left
    exact ⟨"failed to make HTTP request to ipify.org: " ++ err,
      by simp [getPublicIPv4, h, bind, Prog.bind, pure, call]⟩
  | ok resp =>
    rcases resp with ⟨code, status, body⟩
    by_cases hc : code = 200
    · cases body with
      | error err =>
        left
        exact ⟨"failed to read response body from ipify.org: " ++ err,
          by simp [getPublicIPv4, h, hc, bind, Prog.bind, pure, call, StatusOK]⟩
      | ok ip =>
        right
        exact ⟨status, ip, by rw [hc]⟩
    · left
      exact ⟨"ipify.org returned non-OK status: " ++ toString code ++ " " ++ status,
        by simp [getPublicIPv4, h, hc, bind, Prog.bind, pure, call, StatusOK]⟩

theorem main_nocreds (env : Env) (w : World)
    (h : Getenv env "TRANSIP_ACCOUNT_NAME" = "" ∨ Getenv env "TRANSIP_PRIVATE_KEY_PATH" = "") :
    main env w =
      ⟨[.log "TRANSIP_ACCOUNT_NAME and TRANSIP_PRIVATE_KEY_PATH environment variables must be set."],
        .error 1⟩ := by
  unfold main
  rcases h with h | h <;> simp [h, bind, Prog.bind, logFatal]

theorem main_ip_error (env : Env) (w : World) (s e : String)
    (hacc : Getenv env "TRANSIP_ACCOUNT_NAME" ≠ "")
    (hkey : Getenv env "TRANSIP_PRIVATE_KEY_PATH" ≠ "")
    (h : (getPublicIPv4 w).result = .ok (s, some e)) :
    main env w =
      ⟨(getPublicIPv4 w).events ++ [.log ("Failed to get public IPv4 address: " ++ e)],
        .error 1⟩ := by
  unfold main
  generalize getPublicIPv4 w = p at h ⊢
  rcases p with ⟨es, r⟩
  simp only at h
  subst h
  simp [hacc, hkey, bind, Prog.bind, pure, logFatal]

theorem main_client_error (env : Env) (w : World) (status ip e : String)
    (hacc : Getenv env "TRANSIP_ACCOUNT_NAME" ≠ "")
    (hkey : Getenv env "TRANSIP_PRIVATE_KEY_PATH" ≠ "")
    (hip : w.httpGet ipifyURL = .ok ⟨200, status, .ok ip⟩)
    (hcl : w.NewClient (Getenv env "TRANSIP_ACCOUNT_NAME")
      (Getenv env "TRANSIP_PRIVATE_KEY_PATH") = some e) :
    main env w =
      ⟨[.httpGet ipifyURL, .log ("Current public IPv4 address: " ++ ip),
        .NewClient (Getenv env "TRANSIP_ACCOUNT_NAME") (Getenv env "TRANSIP_PRIVATE_KEY_PATH"),
        .log ("Failed to create TransIP API client: " ++ e)], .error 1⟩ := by
  unfold main
  simp [getPublicIPv4_ok w status ip hip, hcl, bind, Prog.bind, pure, call, logPrintf,
    logFatal, hacc, hkey]

theorem main_list_error (env : Env) (w : World) (status ip e : String)
    (hacc : Getenv env "TRANSIP_ACCOUNT_NAME" ≠ "")
    (hkey : Getenv env "TRANSIP_PRIVATE_KEY_PATH" ≠ "")
    (hip : w.httpGet ipifyURL = .ok ⟨200, status, .ok ip⟩)
    (hcl : w.NewClient (Getenv env "TRANSIP_ACCOUNT_NAME")
      (Getenv env "TRANSIP_PRIVATE_KEY_PATH") = none)
    (hl : w.GetDNSEntries (Getenv env "DOMAIN") = .error e) :
    main env w =
      ⟨header env ip ++ [.log ("Failed to get DNS entries for domain "
        ++ Getenv env "DOMAIN" ++ ": " ++ e)], .error 1⟩ := by
  unfold main
  simp [getPublicIPv4_ok w status ip hip, hcl, hl, bind, Prog.bind, pure, call, logPrintf,
    logFatal, header, hacc, hkey]

theorem updateCalls_append (a b : List Event) :
    updateCalls (a ++ b) = updateCalls a ++ updateCalls b := by
  induction a with
  | nil => rfl
  | cons e es ih => cases e <;> simp [updateCalls, ih]

theorem addCalls_append (a b : List Event) :
    addCalls (a ++ b) = addCalls a ++ addCalls b := by
  induction a with
  | nil => rfl
  | cons e es ih => cases e <;> simp [addCalls, ih]

theorem getCalls_append (a b : List Event) :
    getCalls (a ++ b) = getCalls a ++ getCalls b := by
  induction a with
  | nil => rfl
  | cons e es ih => cases e <;> simp [getCalls, ih]

theorem httpCalls_append (a b : List Event) :
    httpCalls (a ++ b) = httpCalls a ++ httpCalls b := by
  induction a with
  | nil => rfl
  | cons e es ih => cases e <;> simp [httpCalls, ih]

/-- Run in which the first matching record already holds `ip`. -/
theorem main_noop (env : Env) (w : World) (status ip : String) (pre post : List DNSEntry)
    (m : DNSEntry)
    (hacc : Getenv env "TRANSIP_ACCOUNT_NAME" ≠ "")
    (hkey : Getenv env "TRANSIP_PRIVATE_KEY_PATH" ≠ "")
    (hip : w.httpGet ipifyURL = .ok ⟨200, status, .ok ip⟩)
    (hcl : w.NewClient (Getenv env "TRANSIP_ACCOUNT_NAME")
      (Getenv env "TRANSIP_PRIVATE_KEY_PATH") = none)
    (hl : w.GetDNSEntries (Getenv env "DOMAIN") = .ok (pre ++ m :: post))
    (hpre : ∀ r ∈ pre, ¬ Matches (Getenv env "SUBDOMAIN") r)
    (hm : Matches (Getenv env "SUBDOMAIN") m)
    (hc : m.Content = ip) :
    main env w =
      ⟨header env ip ++
        [.log ("Found existing A record for " ++ Getenv env "SUBDOMAIN" ++ "."
          ++ Getenv env "DOMAIN" ++ ": " ++ m.Content ++ " (TTL: " ++ toString m.Expire ++ ")"),
         .log ("A record for " ++ Getenv env "SUBDOMAIN" ++ "." ++ Getenv env "DOMAIN"
          ++ " is already set to " ++ ip ++ ". No update needed.")], .ok ()⟩ := by
  rw [main_listed env w status ip _ hacc hkey hip hcl hl,
    rangeLoop_first_match w _ _ ip pre post m hpre hm,
    rangeLoop_match_same w _ _ ip m hm hc]
  simp [Prog.bind]

/-- Run in which the first matching record holds something else than `ip`. -/
theorem main_update (env : Env) (w : World) (status ip : String) (pre post : List DNSEntry)
    (m : DNSEntry)
    (hacc : Getenv env "TRANSIP_ACCOUNT_NAME" ≠ "")
    (hkey : Getenv env "TRANSIP_PRIVATE_KEY_PATH" ≠ "")
    (hip : w.httpGet ipifyURL = .ok ⟨200, status, .ok ip⟩)
    (hcl : w.NewClient (Getenv env "TRANSIP_ACCOUNT_NAME")
      (Getenv env "TRANSIP_PRIVATE_KEY_PATH") = none)
    (hl : w.GetDNSEntries (Getenv env "DOMAIN") = .ok (pre ++ m :: post))
    (hpre : ∀ r ∈ pre, ¬ Matches (Getenv env "SUBDOMAIN") r)
    (hm : Matches (Getenv env "SUBDOMAIN") m)
    (hc : m.Content ≠ ip) :
    main env w =
      ⟨header env ip ++
        [.log ("Found existing A record for " ++ Getenv env "SUBDOMAIN" ++ "."
          ++ Getenv env "DOMAIN" ++ ": " ++ m.Content ++ " (TTL: " ++ toString m.Expire ++ ")"),
         .UpdateDNSEntry (Getenv env "DOMAIN") { m with Content := ip },
         .log (match w.UpdateDNSEntry (Getenv env "DOMAIN") { m with Content := ip } with
          | some err => "Failed to update A record for " ++ Getenv env "SUBDOMAIN" ++ "."
              ++ Getenv env "DOMAIN" ++ " to " ++ ip ++ ": " ++ err
          | none => "Successfully updated A record for " ++ Getenv env "SUBDOMAIN" ++ "."
              ++ Getenv env "DOMAIN" ++ " to " ++ ip)],
        match w.UpdateDNSEntry (Getenv env "DOMAIN") { m with Content := ip } with
          | some _ => .error 1
          | none => .ok ()⟩ := by
  rw [main_listed env w status ip _ hacc hkey hip hcl hl,
    rangeLoop_first_match w _ _ ip pre post m hpre hm,
    rangeLoop_match_diff w _ _ ip m hm hc]
  cases w.UpdateDNSEntry (Getenv env "DOMAIN") { m with Content := ip } <;> simp [Prog.bind]

/-- Run in which no record matches. -/
theorem main_create (env : Env) (w : World) (status ip : String) (l : List DNSEntry)
    (hacc : Getenv env "TRANSIP_ACCOUNT_NAME" ≠ "")
    (hkey : Getenv env "TRANSIP_PRIVATE_KEY_PATH" ≠ "")
    (hip : w.httpGet ipifyURL = .ok ⟨200, status, .ok ip⟩)
    (hcl : w.NewClient (Getenv env "TRANSIP_ACCOUNT_NAME")
      (Getenv env "TRANSIP_PRIVATE_KEY_PATH") = none)
    (hl : w.GetDNSEntries (Getenv env "DOMAIN") = .ok l)
    (hno : ∀ r ∈ l, ¬ Matches (Getenv env "SUBDOMAIN") r) :
    main env w =
      ⟨header env ip ++
        [.AddDNSEntry (Getenv env "DOMAIN") ⟨Getenv env "SUBDOMAIN", 300, "A", ip⟩,
         .log (match w.AddDNSEntry (Getenv env "DOMAIN")
              ⟨Getenv env "SUBDOMAIN", 300, "A", ip⟩ with
          | some err => "Failed to add new A record for " ++ Getenv env "SUBDOMAIN"
              ++ "." ++ Getenv env "DOMAIN" ++ " to " ++ ip ++ ": " ++ err
          | none => "Successfully added new A record for " ++ Getenv env "SUBDOMAIN"
              ++ "." ++ Getenv env "DOMAIN" ++ " to " ++ ip)],
        match w.AddDNSEntry (Getenv env "DOMAIN") ⟨Getenv env "SUBDOMAIN", 300, "A", ip⟩ with
          | some _ => .error 1
          | none => .ok ()⟩ := by
  rw [main_listed env w status ip _ hacc hkey hip hcl hl,
    rangeLoop_nomatch w _ _ ip l hno]
  simp [Prog.bind]

theorem rangeLoop_summary (w : World) (d s ip : String) (l : List DNSEntry) :
    rangeLoop w d s ip l = ⟨[], .ok false⟩ ∨
    ((rangeLoop w d s ip l).result ≠ .ok false ∧
      getCalls (rangeLoop w d s ip l).events = [] ∧
      httpCalls (rangeLoop w d s ip l).events = [] ∧
      addCalls (rangeLoop w d s ip l).events = [] ∧
      (updateCalls (rangeLoop w d s ip l).events).length ≤ 1 ∧
      ∀ x ∈ updateCalls (rangeLoop w d s ip l).events,
        ∃ r ∈ l, Matches s r ∧ x = (d, { r with Content := ip })) := by
  rcases split_first_match s l with h | ⟨pre, m, post, rfl, hpre, hm⟩
  · left; exact rangeLoop_nomatch w d s ip l h
  · right
    rw [rangeLoop_first_match w d s ip pre post m hpre hm]
    by_cases hc : m.Content = ip
    · rw [rangeLoop_match_same w d s ip m hm hc]
      simp [getCalls, httpCalls, addCalls, updateCalls]
    · rw [rangeLoop_match_diff w d s ip m hm hc]
      refine ⟨?_, ?_, ?_, ?_, ?_, ?_⟩
      · cases w.UpdateDNSEntry d { m with Content := ip } <;> simp
      · simp [getCalls]
      · simp [httpCalls]
      · simp [addCalls]
      · simp [updateCalls]
      · intro x hx
        simp only [updateCalls, List.mem_singleton] at hx
        exact ⟨m, by simp, hm, hx⟩

theorem replaceFirst_first_match (p : DNSEntry → Bool) (e m : DNSEntry)
    (pre post : List DNSEntry) (hpre : ∀ r ∈ pre, p r = false) (hm : p m = true) :
    replaceFirst p e (pre ++ m :: post) = pre ++ e :: post := by
  induction pre with
  | nil => simp [replaceFirst, hm]
  | cons r rest ih =>
    have hr : p r = false := hpre r (List.mem_cons_self _ _)
    simp [replaceFirst, hr, ih (fun x hx => hpre x (List.mem_cons_of_mem _ hx))]

theorem main_httpCalls (env : Env) (w : World)
    (hacc : Getenv env "TRANSIP_ACCOUNT_NAME" ≠ "")
    (hkey : Getenv env "TRANSIP_PRIVATE_KEY_PATH" ≠ "") :
    httpCalls (main env w).events = [ipifyURL] ∧
    ∀ status ip, w.httpGet ipifyURL = .ok ⟨200, status, .ok ip⟩ →
      w.NewClient (Getenv env "TRANSIP_ACCOUNT_NAME")
        (Getenv env "TRANSIP_PRIVATE_KEY_PATH") = none →
      getCalls (main env w).events = [Getenv env "DOMAIN"] := by
  have listed : ∀ status ip, w.httpGet ipifyURL = .ok ⟨200, status, .ok ip⟩ →
      w.NewClient (Getenv env "TRANSIP_ACCOUNT_NAME")
        (Getenv env "TRANSIP_PRIVATE_KEY_PATH") = none →
      httpCalls (main env w).events = [ipifyURL] ∧
      getCalls (main env w).events = [Getenv env "DOMAIN"] := by
    intro status ip hip hcl
    cases hl : w.GetDNSEntries (Getenv env "DOMAIN") with
    | error e =>
      simp [main_list_error env w status ip e hacc hkey hip hcl hl, httpCalls, getCalls, header]
    | ok l =>
      rw [main_listed env w status ip l hacc hkey hip hcl hl]
      rcases rangeLoop_summary w (Getenv env "DOMAIN") (Getenv env "SUBDOMAIN") ip l
        with h | ⟨hres, hget, hhttp, -, -, -⟩
      · rw [h]
        simp [Prog.bind, httpCalls, getCalls, header]
      · generalize rangeLoop w (Getenv env "DOMAIN") (Getenv env "SUBDOMAIN") ip l = p
          at hres hget hhttp
        rcases p with ⟨es, _ | found⟩
        · simp only at hget hhttp
          simp [Prog.bind, httpCalls_append, getCalls_append, httpCalls, getCalls, header,
            hget, hhttp]
        · cases found
          · exact absurd rfl hres
          · simp only at hget hhttp
            simp [Prog.bind, httpCalls_append, getCalls_append, httpCalls, getCalls, header,
              hget, hhttp]
  refine ⟨?_, fun status ip hip hcl => (listed status ip hip hcl).2⟩
  rcases getPublicIPv4_cases w with ⟨e, he⟩ | ⟨status, ip, hip⟩
  · simp [main_ip_error env w "" e hacc hkey (by rw [he]), he, httpCalls]
  · cases hcl : w.NewClient (Getenv env "TRANSIP_ACCOUNT_NAME")
        (Getenv env "TRANSIP_PRIVATE_KEY_PATH") with
    | some e =>
      simp [main_client_error env w status ip e hacc hkey hip hcl, httpCalls]
    | none => exact (listed status ip hip hcl).1

/-- Once resolution and client construction have succeeded, the exit status is decided by
the registrar alone: the run ends with status 1 exactly when the listing call, or a write
call the run made, was answered with an error; otherwise it ends normally. -/
theorem main_exit_decided_by_registrar (env : Env) (w : World) (status ip : String)
    (hacc : Getenv env "TRANSIP_ACCOUNT_NAME" ≠ "")
    (hkey : Getenv env "TRANSIP_PRIVATE_KEY_PATH" ≠ "")
    (hip : w.httpGet ipifyURL = .ok ⟨200, status, .ok ip⟩)
    (hcl : w.NewClient (Getenv env "TRANSIP_ACCOUNT_NAME")
      (Getenv env "TRANSIP_PRIVATE_KEY_PATH") = none) :
    ((main env w).result = .ok () ∨ (main env w).result = .error 1) ∧
    ((main env w).result = .error 1 ↔
      (∃ e, w.GetDNSEntries (Getenv env "DOMAIN") = .error e) ∨
      (∃ c ∈ updateCalls (main env w).events, w.UpdateDNSEntry c.1 c.2 ≠ none) ∨
      (∃ c ∈ addCalls (main env w).events, w.AddDNSEntry c.1 c.2 ≠ none)) := by
  cases hl : w.GetDNSEntries (Getenv env "DOMAIN") with
  | error e =>
    simp [main_list_error env w status ip e hacc hkey hip hcl hl]
  | ok l =>
    rcases split_first_match (Getenv env "SUBDOMAIN") l with
      hno | ⟨pre, m, post, rfl, hpre, hm⟩
    · rw [main_create env w status ip l hacc hkey hip hcl hl hno]
      cases hA : w.AddDNSEntry (Getenv env "DOMAIN") ⟨Getenv env "SUBDOMAIN", 300, "A", ip⟩ <;>
        simp [header, updateCalls, addCalls, hA]
    · by_cases hc : m.Content = ip
      · rw [main_noop env w status ip pre post m hacc hkey hip hcl hl hpre hm hc]
        simp [header, updateCalls, addCalls]
      · rw [main_update env w status ip pre post m hacc hkey hip hcl hl hpre hm hc]
        cases hU : w.UpdateDNSEntry (Getenv env "DOMAIN") { m with Content := ip } <;>
          simp [header, updateCalls, addCalls, hU]

/-! ## The claims -/

/-- C1 (as stated) fails: the listing `duplicateRecords` contains an "A" record named
`home` whose content equals the resolved address 9.9.9.9, yet the run issues an
`UpdateDNSEntry` call, because the earlier "A" record named `home` holds 1.1.1.1. -/
theorem C1_contains_is_not_enough :
    (∃ r ∈ duplicateRecords, r.Type_ = "A" ∧ r.Name = Getenv exampleEnv "SUBDOMAIN"
        ∧ r.Content = "9.9.9.9") ∧
    (exampleWorld "9.9.9.9" duplicateRecords).GetDNSEntries (Getenv exampleEnv "DOMAIN")
      = .ok duplicateRecords ∧
    updateCalls (main exampleEnv (exampleWorld "9.9.9.9" duplicateRecords)).events
      = [("example.com", ⟨"home", 300, "A", "9.9.9.9"⟩)] ∧
    mutatingCalls (main exampleEnv (exampleWorld "9.9.9.9" duplicateRecords)).events ≠ 0 := by
  refine ⟨⟨⟨"home", 3600, "A", "9.9.9.9"⟩, by simp [duplicateRecords], rfl, by decide, rfl⟩,
    rfl, by decide, by decide⟩

/-- C1 (amended): idempotence on the first match.  If the listing succeeds and the
earliest record with type "A" and name `subdomain` has content equal to `ip`, the run
consists of the resolution, the client construction, the listing and two log lines; it
issues no `UpdateDNSEntry` and no `AddDNSEntry` call and ends normally (no-op). -/
theorem C1_idempotent_on_first_match (env : Env) (w : World) (status ip : String)
    (pre post : List DNSEntry) (m : DNSEntry)
    (hacc : Getenv env "TRANSIP_ACCOUNT_NAME" ≠ "")
    (hkey : Getenv env "TRANSIP_PRIVATE_KEY_PATH" ≠ "")
    (hip : w.httpGet ipifyURL = .ok ⟨200, status, .ok ip⟩)
    (hcl : w.NewClient (Getenv env "TRANSIP_ACCOUNT_NAME")
      (Getenv env "TRANSIP_PRIVATE_KEY_PATH") = none)
    (hl : w.GetDNSEntries (Getenv env "DOMAIN") = .ok (pre ++ m :: post))
    (hpre : ∀ r ∈ pre, ¬ Matches (Getenv env "SUBDOMAIN") r)
    (hm : Matches (Getenv env "SUBDOMAIN") m)
    (hc : m.Content = ip) :
    main env w =
      ⟨header env ip ++
        [.log ("Found existing A record for " ++ Getenv env "SUBDOMAIN" ++ "."
          ++ Getenv env "DOMAIN" ++ ": " ++ m.Content ++ " (TTL: " ++ toString m.Expire ++ ")"),
         .log ("A record for " ++ Getenv env "SUBDOMAIN" ++ "." ++ Getenv env "DOMAIN"
          ++ " is already set to " ++ ip ++ ". No update needed.")], .ok ()⟩ ∧
    updateCalls (main env w).events = [] ∧
    addCalls (main env w).events = [] ∧
    mutatingCalls (main env w).events = 0 := by
  have h := main_noop env w status ip pre post m hacc hkey hip hcl hl hpre hm hc
  refine ⟨h, ?_, ?_, ?_⟩ <;> rw [h] <;> simp [header, updateCalls, addCalls, mutatingCalls]

/-- C1 witness: records [home A 9.9.9.9 3600], subdomain home, ip 9.9.9.9. -/
theorem C1_idempotent_on_first_match_witness :
    main exampleEnv (exampleWorld "9.9.9.9" [⟨"home", 3600, "A", "9.9.9.9"⟩]) =
      ⟨[.httpGet "https://api.ipify.org",
        .log "Current public IPv4 address: 9.9.9.9",
        .NewClient "acct" "/etc/transip/key.pem",
        .GetDNSEntries "example.com",
        .log "Found existing A record for home.example.com: 9.9.9.9 (TTL: 3600)",
        .log "A record for home.example.com is already set to 9.9.9.9. No update needed."],
       .ok ()⟩ ∧
    updateCalls (main exampleEnv
      (exampleWorld "9.9.9.9" [⟨"home", 3600, "A", "9.9.9.9"⟩])).events = [] ∧
    addCalls (main exampleEnv
      (exampleWorld "9.9.9.9" [⟨"home", 3600, "A", "9.9.9.9"⟩])).events = [] ∧
    mutatingCalls (main exampleEnv
      (exampleWorld "9.9.9.9" [⟨"home", 3600, "A", "9.9.9.9"⟩])).events = 0 :=
  C1_idempotent_on_first_match exampleEnv
    (exampleWorld "9.9.9.9" [⟨"home", 3600, "A", "9.9.9.9"⟩]) "200 OK" "9.9.9.9"
    [] [] ⟨"home", 3600, "A", "9.9.9.9"⟩ (by decide) (by decide) rfl rfl rfl
    (by simp) (by decide) rfl

/-- C2: update correctness.  If the listing succeeds and the earliest record `m` with
type "A" and name `subdomain` has content different from `ip`, the run issues exactly one
`UpdateDNSEntry` call and no `AddDNSEntry` call; the record passed has the name, type and
expire of `m` and content `ip`.  The run ends normally iff the registrar accepts the update. -/
theorem C2_update_correct (env : Env) (w : World) (status ip : String)
    (pre post : List DNSEntry) (m : DNSEntry)
    (hacc : Getenv env "TRANSIP_ACCOUNT_NAME" ≠ "")
    (hkey : Getenv env "TRANSIP_PRIVATE_KEY_PATH" ≠ "")
    (hip : w.httpGet ipifyURL = .ok ⟨200, status, .ok ip⟩)
    (hcl : w.NewClient (Getenv env "TRANSIP_ACCOUNT_NAME")
      (Getenv env "TRANSIP_PRIVATE_KEY_PATH") = none)
    (hl : w.GetDNSEntries (Getenv env "DOMAIN") = .ok (pre ++ m :: post))
    (hpre : ∀ r ∈ pre, ¬ Matches (Getenv env "SUBDOMAIN") r)
    (hm : Matches (Getenv env "SUBDOMAIN") m)
    (hc : m.Content ≠ ip) :
    updateCalls (main env w).events
      = [(Getenv env "DOMAIN", ⟨m.Name, m.Expire, m.Type_, ip⟩)] ∧
    addCalls (main env w).events = [] ∧
    mutatingCalls (main env w).events = 1 ∧
    ((main env w).result = .ok () ↔
      w.UpdateDNSEntry (Getenv env "DOMAIN") ⟨m.Name, m.Expire, m.Type_, ip⟩ = none) := by
  have h := main_update env w status ip pre post m hacc hkey hip hcl hl hpre hm hc
  refine ⟨?_, ?_, ?_, ?_⟩
  · rw [h]; simp [header, updateCalls]
  · rw [h]; simp [header, addCalls]
  · rw [h]; simp [header, updateCalls, addCalls, mutatingCalls]
  · rw [h]
    cases w.UpdateDNSEntry (Getenv env "DOMAIN") ⟨m.Name, m.Expire, m.Type_, ip⟩ <;> simp

/-- C2 witness: existing [home A 9.9.9.9 3600] and ip 8.8.8.8 give one update with
content 8.8.8.8 and expire 3600. -/
theorem C2_update_correct_witness :
    updateCalls (main exampleEnv
      (exampleWorld "8.8.8.8" [⟨"home", 3600, "A", "9.9.9.9"⟩])).events
      = [("example.com", ⟨"home", 3600, "A", "8.8.8.8"⟩)] ∧
    addCalls (main exampleEnv
      (exampleWorld "8.8.8.8" [⟨"home", 3600, "A", "9.9.9.9"⟩])).events = [] ∧
    mutatingCalls (main exampleEnv
      (exampleWorld "8.8.8.8" [⟨"home", 3600, "A", "9.9.9.9"⟩])).events = 1 ∧
    ((main exampleEnv (exampleWorld "8.8.8.8" [⟨"home", 3600, "A", "9.9.9.9"⟩])).result
        = .ok () ↔
      (exampleWorld "8.8.8.8" [⟨"home", 3600, "A", "9.9.9.9"⟩]).UpdateDNSEntry
        "example.com" ⟨"home", 3600, "A", "8.8.8.8"⟩ = none) :=
  C2_update_correct exampleEnv
    (exampleWorld "8.8.8.8" [⟨"home", 3600, "A", "9.9.9.9"⟩]) "200 OK" "8.8.8.8"
    [] [] ⟨"home", 3600, "A", "9.9.9.9"⟩ (by decide) (by decide) rfl rfl rfl
    (by simp) (by decide) (by decide)

/-- C3: creation correctness.  If the listing succeeds and holds no record with type "A"
and name `subdomain`, the run issues exactly one `AddDNSEntry` call and no
`UpdateDNSEntry` call, and the record passed is
`{Name: subdomain, Expire: 300, Type: "A", Content: ip}`. -/
theorem C3_create_correct (env : Env) (w : World) (status ip : String)
    (records : List DNSEntry)
    (hacc : Getenv env "TRANSIP_ACCOUNT_NAME" ≠ "")
    (hkey : Getenv env "TRANSIP_PRIVATE_KEY_PATH" ≠ "")
    (hip : w.httpGet ipifyURL = .ok ⟨200, status, .ok ip⟩)
    (hcl : w.NewClient (Getenv env "TRANSIP_ACCOUNT_NAME")
      (Getenv env "TRANSIP_PRIVATE_KEY_PATH") = none)
    (hl : w.GetDNSEntries (Getenv env "DOMAIN") = .ok records)
    (hno : ∀ r ∈ records, ¬ (r.Type_ = "A" ∧ r.Name = Getenv env "SUBDOMAIN")) :
    addCalls (main env w).events
      = [(Getenv env "DOMAIN", ⟨Getenv env "SUBDOMAIN", 300, "A", ip⟩)] ∧
    updateCalls (main env w).events = [] ∧
    mutatingCalls (main env w).events = 1 := by
  have hno2 : ∀ r ∈ records, ¬ Matches (Getenv env "SUBDOMAIN") r :=
    fun r hr hmr => hno r hr ⟨hmr.2, hmr.1⟩
  have h := main_create env w status ip records hacc hkey hip hcl hl hno2
  refine ⟨?_, ?_, ?_⟩ <;> rw [h] <;> simp [header, updateCalls, addCalls, mutatingCalls]

/-- C3 witness: a listing that only holds an "AAAA" record and a "TXT" record named
`home` (TTL 86400 and 60) and an "A" record named `www` leads to one add call with TTL 300. -/
theorem C3_create_correct_witness :
    addCalls (main exampleEnv (exampleWorld "8.8.8.8"
        [⟨"home", 86400, "AAAA", "2001:db8::1"⟩, ⟨"home", 60, "TXT", "v=spf1 -all"⟩,
         ⟨"www", 300, "A", "8.8.8.8"⟩])).events
      = [("example.com", ⟨"home", 300, "A", "8.8.8.8"⟩)] ∧
    updateCalls (main exampleEnv (exampleWorld "8.8.8.8"
        [⟨"home", 86400, "AAAA", "2001:db8::1"⟩, ⟨"home", 60, "TXT", "v=spf1 -all"⟩,
         ⟨"www", 300, "A", "8.8.8.8"⟩])).events = [] ∧
    mutatingCalls (main exampleEnv (exampleWorld "8.8.8.8"
        [⟨"home", 86400, "AAAA", "2001:db8::1"⟩, ⟨"home", 60, "TXT", "v=spf1 -all"⟩,
         ⟨"www", 300, "A", "8.8.8.8"⟩])).events = 1 :=
  C3_create_correct exampleEnv (exampleWorld "8.8.8.8"
        [⟨"home", 86400, "AAAA", "2001:db8::1"⟩, ⟨"home", 60, "TXT", "v=spf1 -all"⟩,
         ⟨"www", 300, "A", "8.8.8.8"⟩]) "200 OK" "8.8.8.8" _
    (by decide) (by decide) rfl rfl rfl (by decide)

/-- C4: selection.  Let the listing succeed with `records`.  (1) Whenever `m` is the
earliest record of `records` whose type is "A" and whose name is `subdomain`
(`records = pre ++ m :: post`, nothing in `pre` matches), the run compares `m.Content`
against `ip` and, if they differ, updates `m` and nothing else: its events are the header,
the "Found existing" line for `m`, and then either the "already set" line or the update of
`m` with its log line.  The records `post` after the first match do not influence the
run: replacing them by any other `post2` gives the same run.  (2) Every record passed to
`UpdateDNSEntry` comes from a listed record with name `subdomain` and type "A"; records
with another type or another name are never selected. -/
theorem C4_first_match_selected (env : Env) (w : World) (status ip : String)
    (records : List DNSEntry)
    (hacc : Getenv env "TRANSIP_ACCOUNT_NAME" ≠ "")
    (hkey : Getenv env "TRANSIP_PRIVATE_KEY_PATH" ≠ "")
    (hip : w.httpGet ipifyURL = .ok ⟨200, status, .ok ip⟩)
    (hcl : w.NewClient (Getenv env "TRANSIP_ACCOUNT_NAME")
      (Getenv env "TRANSIP_PRIVATE_KEY_PATH") = none)
    (hl : w.GetDNSEntries (Getenv env "DOMAIN") = .ok records) :
    (∀ pre m post, records = pre ++ m :: post →
      (∀ r ∈ pre, ¬ (r.Type_ = "A" ∧ r.Name = Getenv env "SUBDOMAIN")) →
      m.Type_ = "A" → m.Name = Getenv env "SUBDOMAIN" →
      (main env w).events =
        header env ip ++
          .log ("Found existing A record for " ++ Getenv env "SUBDOMAIN" ++ "."
            ++ Getenv env "DOMAIN" ++ ": " ++ m.Content ++ " (TTL: "
            ++ toString m.Expire ++ ")") ::
          (if m.Content = ip then
            [.log ("A record for " ++ Getenv env "SUBDOMAIN" ++ "." ++ Getenv env "DOMAIN"
              ++ " is already set to " ++ ip ++ ". No update needed.")]
          else
            [.UpdateDNSEntry (Getenv env "DOMAIN") ⟨m.Name, m.Expire, m.Type_, ip⟩,
             .log (match w.UpdateDNSEntry (Getenv env "DOMAIN")
                  ⟨m.Name, m.Expire, m.Type_, ip⟩ with
              | some err => "Failed to update A record for " ++ Getenv env "SUBDOMAIN" ++ "."
                  ++ Getenv env "DOMAIN" ++ " to " ++ ip ++ ": " ++ err
              | none => "Successfully updated A record for " ++ Getenv env "SUBDOMAIN" ++ "."
                  ++ Getenv env "DOMAIN" ++ " to " ++ ip)]) ∧
      ∀ post2, main env (withListing w (pre ++ m :: post2)) = main env w) ∧
    (∀ d e, (d, e) ∈ updateCalls (main env w).events →
      ∃ r ∈ records, r.Type_ = "A" ∧ r.Name = Getenv env "SUBDOMAIN" ∧
        e = ⟨r.Name, r.Expire, r.Type_, ip⟩) := by
  constructor
  · intro pre m post hrec hpre hmT hmN
    subst hrec
    have hpre2 : ∀ r ∈ pre, ¬ Matches (Getenv env "SUBDOMAIN") r :=
      fun r hr hmr => hpre r hr ⟨hmr.2, hmr.1⟩
    have hm : Matches (Getenv env "SUBDOMAIN") m := ⟨hmN, hmT⟩
    have key : ∀ post2, main env (withListing w (pre ++ m :: post2)) =
        Prog.bind ⟨header env ip, .ok ()⟩ (fun _ =>
          Prog.bind (rangeLoop w (Getenv env "DOMAIN") (Getenv env "SUBDOMAIN") ip [m])
            (fun foundRecord =>
              if foundRecord then ⟨[], .ok ()⟩ else
                ⟨[.AddDNSEntry (Getenv env "DOMAIN") ⟨Getenv env "SUBDOMAIN", 300, "A", ip⟩,
                  .log (match w.AddDNSEntry (Getenv env "DOMAIN")
                      ⟨Getenv env "SUBDOMAIN", 300, "A", ip⟩ with
                    | some err => "Failed to add new A record for " ++ Getenv env "SUBDOMAIN"
                        ++ "." ++ Getenv env "DOMAIN" ++ " to " ++ ip ++ ": " ++ err
                    | none => "Successfully added new A record for "
                        ++ Getenv env "SUBDOMAIN"
                        ++ "." ++ Getenv env "DOMAIN" ++ " to " ++ ip)],
                 match w.AddDNSEntry (Getenv env "DOMAIN")
                      ⟨Getenv env "SUBDOMAIN", 300, "A", ip⟩ with
                    | some _ => .error 1
                    | none => .ok ()⟩)) := by
      intro post2
      have h2 := main_listed env (withListing w (pre ++ m :: post2)) status ip
        (pre ++ m :: post2) hacc hkey hip hcl rfl
      have h3 := rangeLoop_first_match (withListing w (pre ++ m :: post2))
        (Getenv env "DOMAIN") (Getenv env "SUBDOMAIN") ip pre post2 m hpre2 hm
      rw [h2, h3]
      rfl
    constructor
    · by_cases hc : m.Content = ip
      · rw [main_noop env w status ip pre post m hacc hkey hip hcl hl hpre2 hm hc]
        simp [hc]
      · rw [main_update env w status ip pre post m hacc hkey hip hcl hl hpre2 hm hc]
        simp [hc]
    · intro post2
      rw [key post2, main_listed env w status ip _ hacc hkey hip hcl hl,
        rangeLoop_first_match w _ _ ip pre post m hpre2 hm]
  · rw [main_listed env w status ip records hacc hkey hip hcl hl]
    rcases rangeLoop_summary w (Getenv env "DOMAIN") (Getenv env "SUBDOMAIN") ip records
      with h | ⟨hres, -, -, -, -, hsel⟩
    · rw [h]
      intro d e hde
      simp [Prog.bind, header, updateCalls] at hde
    · intro d e hde
      have hmem : (d, e) ∈ updateCalls
          (rangeLoop w (Getenv env "DOMAIN") (Getenv env "SUBDOMAIN") ip records).events := by
        generalize rangeLoop w (Getenv env "DOMAIN") (Getenv env "SUBDOMAIN") ip records = p
          at hres hde
        rcases p with ⟨es, _ | found⟩
        · simpa [Prog.bind, header, updateCalls] using hde
        · cases found
          · exact absurd rfl hres
          · simpa [Prog.bind, header, updateCalls, updateCalls_append] using hde
      obtain ⟨r, hr, hmr, hx⟩ := hsel (d, e) hmem
      exact ⟨r, hr, hmr.2, hmr.1, (Prod.mk.inj hx).2⟩

/-- C4 witness: in `mixedRecords` with ip 9.9.9.9 the run selects the third record (the
first "A" record named `home`, content 1.1.1.1) and updates it, although the second
record has type "A" and the fourth already holds 9.9.9.9. -/
theorem C4_first_match_selected_witness :
    (main exampleEnv (exampleWorld "9.9.9.9" mixedRecords)).events =
      [.httpGet "https://api.ipify.org",
       .log "Current public IPv4 address: 9.9.9.9",
       .NewClient "acct" "/etc/transip/key.pem",
       .GetDNSEntries "example.com",
       .log "Found existing A record for home.example.com: 1.1.1.1 (TTL: 300)",
       .UpdateDNSEntry "example.com" ⟨"home", 300, "A", "9.9.9.9"⟩,
       .log "Successfully updated A record for home.example.com to 9.9.9.9"] ∧
    ∀ post2, main exampleEnv (withListing (exampleWorld "9.9.9.9" mixedRecords)
        ([⟨"home", 86400, "AAAA", "2001:db8::1"⟩, ⟨"www", 300, "A", "9.9.9.9"⟩]
          ++ ⟨"home", 300, "A", "1.1.1.1"⟩ :: post2))
      = main exampleEnv (exampleWorld "9.9.9.9" mixedRecords) :=
  (C4_first_match_selected exampleEnv (exampleWorld "9.9.9.9" mixedRecords) "200 OK"
    "9.9.9.9" mixedRecords (by decide) (by decide) rfl rfl rfl).1
    [⟨"home", 86400, "AAAA", "2001:db8::1"⟩, ⟨"www", 300, "A", "9.9.9.9"⟩]
    ⟨"home", 300, "A", "1.1.1.1"⟩ [⟨"home", 3600, "A", "9.9.9.9"⟩] rfl (by decide) rfl rfl

/-- C5: at most one mutation.  For every environment and every behaviour of the
collaborators, one run of `main` makes at most one mutating registrar call
(`UpdateDNSEntry` plus `AddDNSEntry`) and at most one `GetDNSEntries` call. -/
theorem C5_at_most_one_mutation (env : Env) (w : World) :
    mutatingCalls (main env w).events ≤ 1 ∧ (getCalls (main env w).events).length ≤ 1 := by
  by_cases hcreds : Getenv env "TRANSIP_ACCOUNT_NAME" = ""
      ∨ Getenv env "TRANSIP_PRIVATE_KEY_PATH" = ""
  · rw [main_nocreds env w hcreds]
    simp [mutatingCalls, updateCalls, addCalls, getCalls]
  · have hacc : Getenv env "TRANSIP_ACCOUNT_NAME" ≠ "" := fun h => hcreds (Or.inl h)
    have hkey : Getenv env "TRANSIP_PRIVATE_KEY_PATH" ≠ "" := fun h => hcreds (Or.inr h)
    rcases getPublicIPv4_cases w with ⟨e, he⟩ | ⟨status, ip, hip⟩
    · rw [main_ip_error env w "" e hacc hkey (by rw [he]), he]
      simp [mutatingCalls, updateCalls, addCalls, getCalls]
    · cases hcl : w.NewClient (Getenv env "TRANSIP_ACCOUNT_NAME")
          (Getenv env "TRANSIP_PRIVATE_KEY_PATH") with
      | some e =>
        rw [main_client_error env w status ip e hacc hkey hip hcl]
        simp [mutatingCalls, updateCalls, addCalls, getCalls]
      | none =>
        cases hl : w.GetDNSEntries (Getenv env "DOMAIN") with
        | error e =>
          rw [main_list_error env w status ip e hacc hkey hip hcl hl]
          simp [mutatingCalls, updateCalls, addCalls, getCalls, header]
        | ok l =>
          rw [main_listed env w status ip l hacc hkey hip hcl hl]
          rcases rangeLoop_summary w (Getenv env "DOMAIN") (Getenv env "SUBDOMAIN") ip l
            with h | ⟨hres, hget, -, hadd, hupd, -⟩
          · rw [h]
            simp [Prog.bind, mutatingCalls, updateCalls, addCalls, getCalls, header]
          · generalize rangeLoop w (Getenv env "DOMAIN") (Getenv env "SUBDOMAIN") ip l = p
              at hres hget hadd hupd
            rcases p with ⟨es, _ | found⟩
            · simp only at hget hadd hupd
              simp [Prog.bind, mutatingCalls, updateCalls_append, addCalls_append,
                getCalls_append, updateCalls, addCalls, getCalls, header, hget, hadd, hupd]
            · cases found
              · exact absurd rfl hres
              · simp only at hget hadd hupd
                simp [Prog.bind, mutatingCalls, updateCalls_append, addCalls_append,
                  getCalls_append, updateCalls, addCalls, getCalls, header, hget, hadd, hupd]

/-- C6: fatal on read failure.  Whenever `GetDNSEntries` answers with an error for the
configured domain, the run ends with exit status 1 and contains neither an
`UpdateDNSEntry` nor an `AddDNSEntry` call; when the listing call is reached, the run is
the header followed by the "Failed to get DNS entries" line. -/
theorem C6_fatal_on_read_failure (env : Env) (w : World) (e : String)
    (hl : w.GetDNSEntries (Getenv env "DOMAIN") = .error e) :
    (main env w).result = .error 1 ∧
    updateCalls (main env w).events = [] ∧
    addCalls (main env w).events = [] ∧
    (∀ status ip, Getenv env "TRANSIP_ACCOUNT_NAME" ≠ "" →
      Getenv env "TRANSIP_PRIVATE_KEY_PATH" ≠ "" →
      w.httpGet ipifyURL = .ok ⟨200, status, .ok ip⟩ →
      w.NewClient (Getenv env "TRANSIP_ACCOUNT_NAME")
        (Getenv env "TRANSIP_PRIVATE_KEY_PATH") = none →
      main env w = ⟨header env ip ++ [.log ("Failed to get DNS entries for domain "
        ++ Getenv env "DOMAIN" ++ ": " ++ e)], .error 1⟩) := by
  refine ⟨?_, ?_, ?_, fun status ip hacc hkey hip hcl =>
    main_list_error env w status ip e hacc hkey hip hcl hl⟩ <;>
  · by_cases hcreds : Getenv env "TRANSIP_ACCOUNT_NAME" = ""
        ∨ Getenv env "TRANSIP_PRIVATE_KEY_PATH" = ""
    · simp [main_nocreds env w hcreds, updateCalls, addCalls]
    · have hacc : Getenv env "TRANSIP_ACCOUNT_NAME" ≠ "" := fun h => hcreds (Or.inl h)
      have hkey : Getenv env "TRANSIP_PRIVATE_KEY_PATH" ≠ "" := fun h => hcreds (Or.inr h)
      rcases getPublicIPv4_cases w with ⟨e2, he⟩ | ⟨status, ip, hip⟩
      · simp [main_ip_error env w "" e2 hacc hkey (by rw [he]), he, updateCalls, addCalls]
      · cases hcl : w.NewClient (Getenv env "TRANSIP_ACCOUNT_NAME")
            (Getenv env "TRANSIP_PRIVATE_KEY_PATH") with
        | some e3 =>
          simp [main_client_error env w status ip e3 hacc hkey hip hcl, updateCalls, addCalls]
        | none =>
          simp [main_list_error env w status ip e hacc hkey hip hcl hl, updateCalls, addCalls,
            header]

/-- C6 witness: the registrar rejects the listing of example.com. -/
theorem C6_fatal_on_read_failure_witness :
    (main exampleEnv listingFailsWorld).result = .error 1 ∧
    updateCalls (main exampleEnv listingFailsWorld).events = [] ∧
    addCalls (main exampleEnv listingFailsWorld).events = [] ∧
    main exampleEnv listingFailsWorld =
      ⟨[.httpGet "https://api.ipify.org",
        .log "Current public IPv4 address: 9.9.9.9",
        .NewClient "acct" "/etc/transip/key.pem",
        .GetDNSEntries "example.com",
        .log "Failed to get DNS entries for domain example.com: domain not found"],
       .error 1⟩ :=
  have h := C6_fatal_on_read_failure exampleEnv listingFailsWorld "domain not found" rfl
  ⟨h.1, h.2.1, h.2.2.1, h.2.2.2 "200 OK" "9.9.9.9" (by decide) (by decide) rfl rfl⟩

/-- C7: resolution failure short-circuits.  (1) If the HTTP GET fails at network level,
the status is not 200, or reading the body fails, `getPublicIPv4` makes its one request
and returns the empty string with a non-nil error.  (2) Whenever `getPublicIPv4` returns
an error, `main` ends with exit status 1 and its events contain no `NewClient`,
`GetDNSEntries`, `UpdateDNSEntry` or `AddDNSEntry` call: every event is the ipify request
or a log line. -/
theorem C7_resolution_failure (env : Env) (w : World) :
    (HttpFailure (w.httpGet ipifyURL) →
      ∃ e, getPublicIPv4 w = ⟨[.httpGet ipifyURL], .ok ("", some e)⟩) ∧
    (∀ s e, (getPublicIPv4 w).result = .ok (s, some e) →
      (main env w).result = .error 1 ∧
      getCalls (main env w).events = [] ∧
      updateCalls (main env w).events = [] ∧
      addCalls (main env w).events = [] ∧
      ∀ ev ∈ (main env w).events, ev = .httpGet ipifyURL ∨ ∃ line, ev = .log line) := by
  constructor
  · intro hf
    rcases getPublicIPv4_cases w with h | ⟨status, ip, hip⟩
    · exact h
    · rw [hip] at hf
      simp [HttpFailure] at hf
  · intro s e he
    by_cases hcreds : Getenv env "TRANSIP_ACCOUNT_NAME" = ""
        ∨ Getenv env "TRANSIP_PRIVATE_KEY_PATH" = ""
    · rw [main_nocreds env w hcreds]
      simp [updateCalls, addCalls, getCalls]
    · have hacc : Getenv env "TRANSIP_ACCOUNT_NAME" ≠ "" := fun h => hcreds (Or.inl h)
      have hkey : Getenv env "TRANSIP_PRIVATE_KEY_PATH" ≠ "" := fun h => hcreds (Or.inr h)
      rw [main_ip_error env w s e hacc hkey he]
      rcases getPublicIPv4_cases w with ⟨e2, he2⟩ | ⟨status, ip, hip⟩
      · rw [he2]
        simp [updateCalls, addCalls, getCalls]
      · rw [getPublicIPv4_ok w status ip hip] at he
        simp at he

/-- C7 witness: ipify answers 503. -/
theorem C7_resolution_failure_witness :
    (∃ e, getPublicIPv4 ipifyDownWorld = ⟨[.httpGet ipifyURL], .ok ("", some e)⟩) ∧
    (main exampleEnv ipifyDownWorld).result = .error 1 ∧
    getCalls (main exampleEnv ipifyDownWorld).events = [] ∧
    updateCalls (main exampleEnv ipifyDownWorld).events = [] ∧
    addCalls (main exampleEnv ipifyDownWorld).events = [] ∧
    ∀ ev ∈ (main exampleEnv ipifyDownWorld).events,
      ev = .httpGet ipifyURL ∨ ∃ line, ev = .log line :=
  ⟨(C7_resolution_failure exampleEnv ipifyDownWorld).1 (Or.inl (by decide)),
   (C7_resolution_failure exampleEnv ipifyDownWorld).2 ""
    "ipify.org returned non-OK status: 503 503 Service Unavailable" rfl⟩

/-- C8: missing credentials are fatal before any network activity.  If
`TRANSIP_ACCOUNT_NAME` or `TRANSIP_PRIVATE_KEY_PATH` is empty or unset, the whole run is
one log line followed by exit status 1: no ipify request and no registrar call. -/
theorem C8_missing_credentials (env : Env) (w : World)
    (h : Getenv env "TRANSIP_ACCOUNT_NAME" = "" ∨ Getenv env "TRANSIP_PRIVATE_KEY_PATH" = "") :
    main env w =
      ⟨[.log "TRANSIP_ACCOUNT_NAME and TRANSIP_PRIVATE_KEY_PATH environment variables must be set."],
        .error 1⟩ ∧
    httpCalls (main env w).events = [] ∧
    getCalls (main env w).events = [] ∧
    updateCalls (main env w).events = [] ∧
    addCalls (main env w).events = [] := by
  rw [main_nocreds env w h]
  simp [httpCalls, getCalls, updateCalls, addCalls]

/-- C8 witness: the key path is set to the empty string, everything else is in order. -/
theorem C8_missing_credentials_witness :
    main [("TRANSIP_ACCOUNT_NAME", "acct"), ("TRANSIP_PRIVATE_KEY_PATH", ""),
        ("DOMAIN", "example.com"), ("SUBDOMAIN", "home")] (exampleWorld "9.9.9.9" []) =
      ⟨[.log "TRANSIP_ACCOUNT_NAME and TRANSIP_PRIVATE_KEY_PATH environment variables must be set."],
        .error 1⟩ ∧
    httpCalls (main [("TRANSIP_ACCOUNT_NAME", "acct"), ("TRANSIP_PRIVATE_KEY_PATH", ""),
        ("DOMAIN", "example.com"), ("SUBDOMAIN", "home")] (exampleWorld "9.9.9.9" [])).events
      = [] ∧
    getCalls (main [("TRANSIP_ACCOUNT_NAME", "acct"), ("TRANSIP_PRIVATE_KEY_PATH", ""),
        ("DOMAIN", "example.com"), ("SUBDOMAIN", "home")] (exampleWorld "9.9.9.9" [])).events
      = [] ∧
    updateCalls (main [("TRANSIP_ACCOUNT_NAME", "acct"), ("TRANSIP_PRIVATE_KEY_PATH", ""),
        ("DOMAIN", "example.com"), ("SUBDOMAIN", "home")] (exampleWorld "9.9.9.9" [])).events
      = [] ∧
    addCalls (main [("TRANSIP_ACCOUNT_NAME", "acct"), ("TRANSIP_PRIVATE_KEY_PATH", ""),
        ("DOMAIN", "example.com"), ("SUBDOMAIN", "home")] (exampleWorld "9.9.9.9" [])).events
      = [] :=
  C8_missing_credentials _ _ (Or.inr (by decide))

/-- C9: repeated runs converge.  Let a first run resolve `ip`, list `records` and end
normally, and let the registrar state after it be `registrarAfter` (a successful update
replaces the selected record in place, a successful create appends).  Then a second run
with the same environment that resolves the same `ip` and lists that state issues no
`UpdateDNSEntry` and no `AddDNSEntry` call and ends normally with the "already set" line
for a listed record of type "A", name `subdomain` and content `ip`. -/
theorem C9_second_run_is_noop (env : Env) (w1 w2 : World) (status1 status2 ip : String)
    (records : List DNSEntry)
    (h1ip : w1.httpGet ipifyURL = .ok ⟨200, status1, .ok ip⟩)
    (h1l : w1.GetDNSEntries (Getenv env "DOMAIN") = .ok records)
    (h1ok : (main env w1).result = .ok ())
    (h2ip : w2.httpGet ipifyURL = .ok ⟨200, status2, .ok ip⟩)
    (h2cl : w2.NewClient (Getenv env "TRANSIP_ACCOUNT_NAME")
      (Getenv env "TRANSIP_PRIVATE_KEY_PATH") = none)
    (h2l : w2.GetDNSEntries (Getenv env "DOMAIN")
      = .ok (registrarAfter w1 records (main env w1).events)) :
    mutatingCalls (main env w2).events = 0 ∧
    (main env w2).result = .ok () ∧
    ∃ m ∈ registrarAfter w1 records (main env w1).events,
      m.Type_ = "A" ∧ m.Name = Getenv env "SUBDOMAIN" ∧ m.Content = ip ∧
      (main env w2).events = header env ip ++
        [.log ("Found existing A record for " ++ Getenv env "SUBDOMAIN" ++ "."
          ++ Getenv env "DOMAIN" ++ ": " ++ m.Content ++ " (TTL: " ++ toString m.Expire ++ ")"),
         .log ("A record for " ++ Getenv env "SUBDOMAIN" ++ "." ++ Getenv env "DOMAIN"
          ++ " is already set to " ++ ip ++ ". No update needed.")] := by
  have hcreds : ¬ (Getenv env "TRANSIP_ACCOUNT_NAME" = ""
      ∨ Getenv env "TRANSIP_PRIVATE_KEY_PATH" = "") := by
    intro hc
    rw [main_nocreds env w1 hc] at h1ok
    simp at h1ok
  have hacc : Getenv env "TRANSIP_ACCOUNT_NAME" ≠ "" := fun h => hcreds (Or.inl h)
  have hkey : Getenv env "TRANSIP_PRIVATE_KEY_PATH" ≠ "" := fun h => hcreds (Or.inr h)
  have h1cl : w1.NewClient (Getenv env "TRANSIP_ACCOUNT_NAME")
      (Getenv env "TRANSIP_PRIVATE_KEY_PATH") = none := by
    cases hcl : w1.NewClient (Getenv env "TRANSIP_ACCOUNT_NAME")
        (Getenv env "TRANSIP_PRIVATE_KEY_PATH") with
    | none => rfl
    | some e =>
      rw [main_client_error env w1 status1 ip e hacc hkey h1ip hcl] at h1ok
      simp at h1ok
  have fin : ∀ pre m post,
      registrarAfter w1 records (main env w1).events = pre ++ m :: post →
      (∀ r ∈ pre, ¬ Matches (Getenv env "SUBDOMAIN") r) →
      Matches (Getenv env "SUBDOMAIN") m → m.Content = ip →
      mutatingCalls (main env w2).events = 0 ∧
      (main env w2).result = .ok () ∧
      ∃ m ∈ registrarAfter w1 records (main env w1).events,
        m.Type_ = "A" ∧ m.Name = Getenv env "SUBDOMAIN" ∧ m.Content = ip ∧
        (main env w2).events = header env ip ++
          [.log ("Found existing A record for " ++ Getenv env "SUBDOMAIN" ++ "."
            ++ Getenv env "DOMAIN" ++ ": " ++ m.Content ++ " (TTL: "
            ++ toString m.Expire ++ ")"),
           .log ("A record for " ++ Getenv env "SUBDOMAIN" ++ "." ++ Getenv env "DOMAIN"
            ++ " is already set to " ++ ip ++ ". No update needed.")] := by
    intro pre m post hreg hpre hm hc
    rw [hreg] at h2l
    have h := main_noop env w2 status2 ip pre post m hacc hkey h2ip h2cl h2l hpre hm hc
    refine ⟨?_, ?_, m, ?_, hm.2, hm.1, hc, ?_⟩
    · rw [h]; simp [header, updateCalls, addCalls, mutatingCalls]
    · rw [h]
    · rw [hreg]; simp
    · rw [h]
  rcases split_first_match (Getenv env "SUBDOMAIN") records with
    hno | ⟨pre, m, post, rfl, hpre, hm⟩
  · have h := main_create env w1 status1 ip records hacc hkey h1ip h1cl h1l hno
    cases hA : w1.AddDNSEntry (Getenv env "DOMAIN") ⟨Getenv env "SUBDOMAIN", 300, "A", ip⟩ with
    | some e =>
      rw [h, hA] at h1ok
      simp at h1ok
    | none =>
      apply fin records ⟨Getenv env "SUBDOMAIN", 300, "A", ip⟩ [] _ hno ⟨rfl, rfl⟩ rfl
      rw [h]
      simp [registrarAfter, registrarStep, header, hA]
  · by_cases hc : m.Content = ip
    · have h := main_noop env w1 status1 ip pre post m hacc hkey h1ip h1cl h1l hpre hm hc
      apply fin pre m post _ hpre hm hc
      rw [h]
      simp [registrarAfter, registrarStep, header]
    · have h := main_update env w1 status1 ip pre post m hacc hkey h1ip h1cl h1l hpre hm hc
      cases hU : w1.UpdateDNSEntry (Getenv env "DOMAIN") { m with Content := ip } with
      | some e =>
        rw [h, hU] at h1ok
        simp at h1ok
      | none =>
        apply fin pre { m with Content := ip } post _ hpre ⟨hm.1, hm.2⟩ rfl
        rw [h]
        simp only [registrarAfter, header, List.cons_append, List.nil_append, List.foldl_cons,
          List.foldl_nil, registrarStep, hU, if_true]
        apply replaceFirst_first_match
        · intro r hr
          have := hpre r hr
          simp only [Matches] at this
          simp only [hm.1, hm.2, Bool.and_eq_false_imp, beq_iff_eq, beq_eq_false_iff_ne]
          intro h1 h2; exact this ⟨h1, h2⟩
        · simp

/-- C9 witness: the first run on `duplicateRecords` with ip 9.9.9.9 updates the first
record in place; the second run, listing the resulting zone, is a no-op. -/
theorem C9_second_run_is_noop_witness :
    registrarAfter (exampleWorld "9.9.9.9" duplicateRecords) duplicateRecords
      (main exampleEnv (exampleWorld "9.9.9.9" duplicateRecords)).events
      = [⟨"home", 300, "A", "9.9.9.9"⟩, ⟨"home", 3600, "A", "9.9.9.9"⟩] ∧
    mutatingCalls (main exampleEnv (exampleWorld "9.9.9.9"
      [⟨"home", 300, "A", "9.9.9.9"⟩, ⟨"home", 3600, "A", "9.9.9.9"⟩])).events = 0 ∧
    (main exampleEnv (exampleWorld "9.9.9.9"
      [⟨"home", 300, "A", "9.9.9.9"⟩, ⟨"home", 3600, "A", "9.9.9.9"⟩])).result = .ok () :=
  have h := C9_second_run_is_noop exampleEnv (exampleWorld "9.9.9.9" duplicateRecords)
    (exampleWorld "9.9.9.9" [⟨"home", 300, "A", "9.9.9.9"⟩, ⟨"home", 3600, "A", "9.9.9.9"⟩])
    "200 OK" "200 OK" "9.9.9.9" duplicateRecords rfl rfl rfl rfl rfl rfl
  ⟨rfl, h.1, h.2.1⟩

/-- C10 (as stated) fails: with credentials set and `DOMAIN` absent, the run is not
stopped at startup.  It contacts ipify, constructs the client and calls `GetDNSEntries`
with the empty domain name.  When the registrar rejects that call, only then the run ends
with exit status 1; when the registrar answers with an empty listing and accepts the
write, the run calls `AddDNSEntry` for the empty domain name and ends normally. -/
theorem C10_missing_domain_reaches_network :
    Getenv noDomainEnv "DOMAIN" = "" ∧
    main noDomainEnv listingFailsWorld =
      ⟨[.httpGet "https://api.ipify.org",
        .log "Current public IPv4 address: 9.9.9.9",
        .NewClient "acct" "/etc/transip/key.pem",
        .GetDNSEntries "",
        .log "Failed to get DNS entries for domain : domain not found"], .error 1⟩ ∧
    httpCalls (main noDomainEnv listingFailsWorld).events = ["https://api.ipify.org"] ∧
    getCalls (main noDomainEnv listingFailsWorld).events = [""] ∧
    main noDomainEnv (exampleWorld "9.9.9.9" []) =
      ⟨[.httpGet "https://api.ipify.org",
        .log "Current public IPv4 address: 9.9.9.9",
        .NewClient "acct" "/etc/transip/key.pem",
        .GetDNSEntries "",
        .AddDNSEntry "" ⟨"home", 300, "A", "9.9.9.9"⟩,
        .log "Successfully added new A record for home. to 9.9.9.9"], .ok ()⟩ := by
  refine ⟨by decide, rfl, by decide, by decide, rfl⟩

/-- C10 (amended): the domain name is not validated.  When `DOMAIN` is absent or empty,
the run is the startup failure (one log line, exit status 1, no network call) exactly
when the account name or the private key path is empty.  Otherwise it issues the ipify
request and, when resolution and client construction succeed, calls `GetDNSEntries` with
the empty domain name and goes on as for any other domain name: a listing error gives the
"Failed to get DNS entries" line and exit status 1; a listing without an "A" record named
`subdomain` leads to `AddDNSEntry` for the empty domain name; the run ends with exit
status 1 exactly when the registrar answered the listing call or a write call of the run
with an error, and ends normally otherwise. -/
theorem C10_domain_not_validated (env : Env) (w : World)
    (hdom : Getenv env "DOMAIN" = "") :
    (main env w =
        ⟨[.log "TRANSIP_ACCOUNT_NAME and TRANSIP_PRIVATE_KEY_PATH environment variables must be set."],
          .error 1⟩ ↔
      (Getenv env "TRANSIP_ACCOUNT_NAME" = "" ∨ Getenv env "TRANSIP_PRIVATE_KEY_PATH" = "")) ∧
    (Getenv env "TRANSIP_ACCOUNT_NAME" ≠ "" → Getenv env "TRANSIP_PRIVATE_KEY_PATH" ≠ "" →
      httpCalls (main env w).events = [ipifyURL] ∧
      ∀ status ip, w.httpGet ipifyURL = .ok ⟨200, status, .ok ip⟩ →
        w.NewClient (Getenv env "TRANSIP_ACCOUNT_NAME")
          (Getenv env "TRANSIP_PRIVATE_KEY_PATH") = none →
        getCalls (main env w).events = [""] ∧
        (∀ e, w.GetDNSEntries "" = .error e →
          main env w = ⟨header env ip ++
            [.log ("Failed to get DNS entries for domain " ++ "" ++ ": " ++ e)], .error 1⟩) ∧
        (∀ l, w.GetDNSEntries "" = .ok l →
          (∀ r ∈ l, ¬ (r.Type_ = "A" ∧ r.Name = Getenv env "SUBDOMAIN")) →
          addCalls (main env w).events = [("", ⟨Getenv env "SUBDOMAIN", 300, "A", ip⟩)] ∧
          updateCalls (main env w).events = []) ∧
        ((main env w).result = .ok () ∨ (main env w).result = .error 1) ∧
        ((main env w).result = .error 1 ↔
          (∃ e, w.GetDNSEntries "" = .error e) ∨
          (∃ c ∈ updateCalls (main env w).events, w.UpdateDNSEntry c.1 c.2 ≠ none) ∨
          (∃ c ∈ addCalls (main env w).events, w.AddDNSEntry c.1 c.2 ≠ none))) := by
  constructor
  · constructor
    · intro h
      by_contra hcreds
      have hacc : Getenv env "TRANSIP_ACCOUNT_NAME" ≠ "" := fun h => hcreds (Or.inl h)
      have hkey : Getenv env "TRANSIP_PRIVATE_KEY_PATH" ≠ "" := fun h => hcreds (Or.inr h)
      have h1 := (main_httpCalls env w hacc hkey).1
      rw [h] at h1
      simp [httpCalls] at h1
    · exact main_nocreds env w
  · intro hacc hkey
    refine ⟨(main_httpCalls env w hacc hkey).1, ?_⟩
    intro status ip hip hcl
    have hget := (main_httpCalls env w hacc hkey).2 status ip hip hcl
    have hexit := main_exit_decided_by_registrar env w status ip hacc hkey hip hcl
    rw [hdom] at hget hexit
    refine ⟨hget, ?_, ?_, hexit.1, hexit.2⟩
    · intro e hl
      rw [← hdom] at hl
      rw [main_list_error env w status ip e hacc hkey hip hcl hl, hdom]
    · intro l hl hno
      rw [← hdom] at hl
      have hno2 : ∀ r ∈ l, ¬ Matches (Getenv env "SUBDOMAIN") r :=
        fun r hr hmr => hno r hr ⟨hmr.2, hmr.1⟩
      rw [main_create env w status ip l hacc hkey hip hcl hl hno2, hdom]
      simp [header, updateCalls, addCalls]

/-- C10 witness: `DOMAIN` absent, credentials set, the registrar answering the listing of
the empty domain name with an empty zone and accepting the write: the run contacts ipify,
lists, adds the record for the empty domain name and does not end with exit status 1. -/
theorem C10_domain_not_validated_witness :
    (main noDomainEnv (exampleWorld "9.9.9.9" []) =
        ⟨[.log "TRANSIP_ACCOUNT_NAME and TRANSIP_PRIVATE_KEY_PATH environment variables must be set."],
          .error 1⟩ ↔
      (Getenv noDomainEnv "TRANSIP_ACCOUNT_NAME" = ""
        ∨ Getenv noDomainEnv "TRANSIP_PRIVATE_KEY_PATH" = "")) ∧
    httpCalls (main noDomainEnv (exampleWorld "9.9.9.9" [])).events = [ipifyURL] ∧
    getCalls (main noDomainEnv (exampleWorld "9.9.9.9" [])).events = [""] ∧
    (addCalls (main noDomainEnv (exampleWorld "9.9.9.9" [])).events
        = [("", ⟨"home", 300, "A", "9.9.9.9"⟩)] ∧
      updateCalls (main noDomainEnv (exampleWorld "9.9.9.9" [])).events = []) ∧
    ((main noDomainEnv (exampleWorld "9.9.9.9" [])).result = .ok ()
      ∨ (main noDomainEnv (exampleWorld "9.9.9.9" [])).result = .error 1) :=
  have h := C10_domain_not_validated noDomainEnv (exampleWorld "9.9.9.9" []) (by decide)
  have h2 := (h.2 (by decide) (by decide)).2 "200 OK" "9.9.9.9" rfl rfl
  ⟨h.1, (h.2 (by decide) (by decide)).1, h2.1, h2.2.2.1 [] rfl (by decide), h2.2.2.2.1⟩

end TransipDdns
